import Mathlib

/-!
Shallow embedding of `src/track-activity.py`, a PostToolUse hook that logs
tool events to `.claude/activity.jsonl`, keeps a session-state document
(`.claude/.session-state.json`) and periodically rewrites the
`LIVE-PROGRESS.md` snapshot; on task completion it also tries to check off
matching items in `CLAUDE.md`.

Modelling conventions:
- Python strings are `List Char` (`PyStr`); `str.lower` is modelled on its
  ASCII range (all strings the program compares are ASCII).
- A line of the activity log is a `LogLine`: `bad` is a line on which
  `json.loads` raises `JSONDecodeError` (caught and skipped by the scanners),
  `nonDict` is a line that parses as JSON of a non-object type (on which
  `entry.get` raises an uncaught `AttributeError`), and `rec e` is a JSON
  object line carrying the fields the tracker reads.
- Fallible scans return `Except Unit`; an `error ()` models an exception
  propagating out of the scanning function.
- Filesystem writes are recorded in an `Effects` structure rather than
  performed; `Path.relative_to` normalisation is an abstract parameter
  `relTo`.
-/

/-- Python strings, modelled as lists of characters. -/
abbrev PyStr := List Char

/-- Membership test of Python's `\s` class (the characters `str.split()`,
`str.strip()` and the regexes treat as whitespace). -/
def isPySpace (c : Char) : Bool :=
  c = ' ' || c = '\t' || c = '\n' || c = '\x0d' || c = '\x0b' || c = '\x0c'

/-- ASCII case folding of one character, as Python `str.lower` acts on the
ASCII range. -/
def pyLowerChar (c : Char) : Char :=
  if 'A' ≤ c ∧ c ≤ 'Z' then Char.ofNat (c.toNat + 32) else c

/-- Python `str.lower` (ASCII range). -/
def pyLower (s : PyStr) : PyStr := s.map pyLowerChar

/-- Python `str.strip()`: drop leading and trailing whitespace. -/
def pyStrip (s : PyStr) : PyStr :=
  ((s.dropWhile isPySpace).reverse.dropWhile isPySpace).reverse

/-- Worker for `pySplitWs`; `acc` holds the characters of the current word
in reverse. -/
def pySplitWsGo : PyStr → PyStr → List PyStr
  | acc, [] => if acc = [] then [] else [acc.reverse]
  | acc, c :: cs =>
    if isPySpace c then
      if acc = [] then pySplitWsGo [] cs else acc.reverse :: pySplitWsGo [] cs
    else pySplitWsGo (c :: acc) cs

/-- Python `str.split()` with no separator: split on runs of whitespace,
discarding empty pieces. -/
def pySplitWs (s : PyStr) : List PyStr := pySplitWsGo [] s

/-- One JSON-object line of `.claude/activity.jsonl`, with the keys the
tracker itself reads back (`entry.get` on a missing key is `none`). -/
structure Entry where
  timestamp : Option PyStr := none
  time_local : Option PyStr := none
  tool : Option PyStr := none
  session_id : Option PyStr := none
  file : Option PyStr := none
  command : Option PyStr := none
  task_id : Option PyStr := none
  task_status : Option PyStr := none
  task_completed : Option Bool := none
deriving DecidableEq

/-- One physical line of the activity log as seen by the scanners. -/
inductive LogLine where
  /-- `json.loads` raises `JSONDecodeError`: the scanners skip the line. -/
  | bad : LogLine
  /-- the line is valid JSON but not an object (for example `42`), so
  `entry.get` raises an uncaught `AttributeError`. -/
  | nonDict : LogLine
  /-- a JSON object line. -/
  | record (e : Entry) : LogLine
deriving DecidableEq

/-- The six per-category counters of `count_activity`. -/
structure Counts where
  edits : Nat := 0
  writes : Nat := 0
  reads : Nat := 0
  commands : Nat := 0
  tasks : Nat := 0
  other : Nat := 0
deriving DecidableEq

/-- The tool-identity classification of `count_activity` (lines 133-145 of
the source). -/
def classify (c : Counts) (tool : PyStr) : Counts :=
  if tool = "Edit".data ∨ tool = "MultiEdit".data then { c with edits := c.edits + 1 }
  else if tool = "Write".data then { c with writes := c.writes + 1 }
  else if tool = "Read".data then { c with reads := c.reads + 1 }
  else if tool = "Bash".data then { c with commands := c.commands + 1 }
  else if tool = "TaskUpdate".data ∨ tool = "TaskCreate".data then { c with tasks := c.tasks + 1 }
  else { c with other := c.other + 1 }

/-- Processing of one log line inside `count_activity`'s loop: skip lines
that fail JSON parsing, fail on non-object JSON, and accumulate only records
whose `timestamp` starts with `today`. -/
def countStep (relTo : PyStr → PyStr) (today : PyStr)
    (acc : Counts × Finset PyStr) : LogLine → Except Unit (Counts × Finset PyStr)
  | .bad => .ok acc
  | .nonDict => .error ()
  | .record e =>
    if today.isPrefixOf (e.timestamp.getD []) then
      let c := classify acc.1 (e.tool.getD [])
      let fs := match e.file with
        | some f => insert (relTo f) acc.2
        | none => acc.2
      .ok (c, fs)
    else .ok acc

/-- The scanning loop of `count_activity`. -/
def countActivityAux (relTo : PyStr → PyStr) (today : PyStr)
    (acc : Counts × Finset PyStr) : List LogLine → Except Unit (Counts × Finset PyStr)
  | [] => .ok acc
  | l :: ls =>
    match countStep relTo today acc l with
    | .error e => .error e
    | .ok acc' => countActivityAux relTo today acc' ls

/-- `count_activity`: per-category counts and the set of files touched,
computed from today's records of the activity log.  `relTo` models the
`Path(file_path).relative_to(Path.cwd())` normalisation (identity when the
conversion raises `ValueError`). -/
def countActivity (relTo : PyStr → PyStr) (today : PyStr)
    (log : List LogLine) : Except Unit (Counts × Finset PyStr) :=
  countActivityAux relTo today ({}, ∅) log

/-- The scanning loop of `extract_completed_tasks`: collect the
`(task_id, time_local)` pairs of today's records marked `task_completed`. -/
def extractAux (today : PyStr) (acc : List (Option PyStr × Option PyStr)) :
    List LogLine → Except Unit (List (Option PyStr × Option PyStr))
  | [] => .ok acc
  | .bad :: ls => extractAux today acc ls
  | .nonDict :: _ => .error ()
  | .record e :: ls =>
    let acc' :=
      if today.isPrefixOf (e.timestamp.getD []) ∧ e.task_completed.getD false then
        acc ++ [(e.task_id, e.time_local)]
      else acc
    extractAux today acc' ls

/-- `extract_completed_tasks`. -/
def extractCompleted (today : PyStr) (log : List LogLine) :
    Except Unit (List (Option PyStr × Option PyStr)) :=
  extractAux today [] log

/-- Parse of the inline pattern of `try_update_roadmap` (line 230 of the
source), the raw regex `^(\s*[-*]\s*)\[\s*\](\s*.+)$` applied to a single
line (a piece of `content.split` on newline, so the line itself contains no
newline): leading whitespace, one `-` or `*` marker, whitespace, an empty
bracket pair (whitespace allowed inside), then a nonempty remainder.  On
success it returns capture groups 1 (through the marker and following
whitespace) and 2 (everything after the closing bracket). -/
def parseUnchecked (line : PyStr) : Option (PyStr × PyStr) :=
  let ws1 := line.takeWhile isPySpace
  match line.dropWhile isPySpace with
  | m :: r2 =>
    if m = '-' ∨ m = '*' then
      let ws2 := r2.takeWhile isPySpace
      match r2.dropWhile isPySpace with
      | '[' :: r4 =>
        match r4.dropWhile isPySpace with
        | ']' :: rest =>
          if rest = [] then none else some (ws1 ++ m :: ws2, rest)
        | _ => none
      | _ => none
    else none
  | [] => none

/-- The replacement text `[x]` spliced between the capture groups. -/
def checkedBox : PyStr := "[x]".data

/-- Python's `needle in haystack` on strings: `needle` occurs as a
contiguous substring of `haystack`. -/
def pyIn (needle haystack : PyStr) : Bool :=
  (List.range (haystack.length + 1)).any (fun i => needle.isPrefixOf (haystack.drop i))

/-- Per-line body of `try_update_roadmap`'s loop: if the line is an
unchecked `-`/`*` item and some word of its text longer than 3 characters
occurs in `subjectLower`, rewrite the bracket to `[x]`; otherwise leave the
line unchanged. -/
def roadmapLine (subjectLower : PyStr) (line : PyStr) : PyStr :=
  match parseUnchecked line with
  | none => line
  | some (g1, g2) =>
    let itemText := pyLower (pyStrip g2)
    let words := (pySplitWs itemText).filter (fun w => w.length > 3)
    if words ≠ [] ∧ words.any (fun w => pyIn w subjectLower) then
      g1 ++ checkedBox ++ g2
    else line

/-- `try_update_roadmap`: `roadmap` is the content of `CLAUDE.md` (`none`
when the file does not exist).  The result is `some` of the rewritten
content exactly when at least one line changed, `none` when the file is
left untouched. -/
def tryUpdateRoadmap (roadmap : Option PyStr) (subject : PyStr) : Option PyStr :=
  match roadmap with
  | none => none
  | some content =>
    let subjectLower := pyLower subject
    let lines := content.splitOn '\n'
    let newLines := lines.map (roadmapLine subjectLower)
    if lines.any (fun l => roadmapLine subjectLower l ≠ l) then
      some (List.intercalate "\n".data newLines)
    else none

/-- One element of the session state's `completed_tasks` list. -/
structure CompletedTask where
  id : Option PyStr
  subject : PyStr
  time : PyStr
deriving DecidableEq

/-- One element of the session state's `milestones` list. -/
structure Milestone where
  time : PyStr
  description : PyStr
deriving DecidableEq

/-- The `.session-state.json` document, as the typed shape `load_state`'s
default produces and the program maintains. -/
structure SessionState where
  action_count : Int
  completed_tasks : List CompletedTask
  session_start : PyStr
  milestones : List Milestone
deriving DecidableEq

/-- The fresh default document `load_state` returns when the state file is
absent or unparseable (`now` is the current local time-of-day string). -/
def freshState (now : PyStr) : SessionState :=
  { action_count := 0, completed_tasks := [], session_start := now, milestones := [] }

/-- Python `lst[-n:]`: the last `n` elements. -/
def pyLastN (n : Nat) (l : List α) : List α := l.drop (l.length - n)

/-- Rendering of one milestone bullet inside the snapshot. -/
def renderMilestone (m : Milestone) : PyStr :=
  "- [".data ++ m.time ++ "] ".data ++ m.description ++ "\n".data

/-- The `milestones_list` string of `update_live_progress` (lines 181-185):
empty when the state's milestone list is empty, otherwise a section header
followed by the last five milestones. -/
def milestonesSection (ms : List Milestone) : PyStr :=
  if ms = [] then []
  else "\n## Milestones\n".data ++ (pyLastN 5 ms).foldl (fun acc m => acc ++ renderMilestone m) []

/-- The data of the snapshot document `update_live_progress` writes to
`LIVE-PROGRESS.md`: the aggregates derived from the log, the rendered
milestones section and the header's action counter. -/
structure Rendered where
  counts : Counts
  files : Finset PyStr
  completed : List (Option PyStr × Option PyStr)
  milestonesList : PyStr
  actionCount : Int
deriving DecidableEq

/-- `update_live_progress`: derive the snapshot from the activity log and
the session state.  An `error` models an exception escaping the function
(the scanners' uncaught `AttributeError` on a non-object JSON line). -/
def updateLiveProgress (relTo : PyStr → PyStr) (today : PyStr)
    (log : List LogLine) (st : SessionState) : Except Unit Rendered :=
  match countActivity relTo today log with
  | .error e => .error e
  | .ok (c, fs) =>
    match extractCompleted today log with
    | .error e => .error e
    | .ok comp =>
      .ok { counts := c, files := fs, completed := comp,
            milestonesList := milestonesSection st.milestones,
            actionCount := st.action_count }

/-- The known keys of the event's `tool_input` mapping. -/
structure ToolInput where
  file_path : Option PyStr := none
  command : Option PyStr := none
  taskId : Option PyStr := none
  status : Option PyStr := none
  subject : Option PyStr := none
deriving DecidableEq, Inhabited

/-- The JSON object read from standard input.  `tool_input = none` models a
value for the key that is not a JSON object (an absent key defaults to the
empty object `{}` in the source and is modelled by `some {}`). -/
structure InputData where
  tool_name : Option PyStr := none
  tool_input : Option ToolInput := none
deriving DecidableEq, Inhabited

/-- The per-invocation ambient data: the two clock strings written into a
log record, today's local date string, the session id from the environment
and the working-directory path normalisation. -/
structure Env where
  nowUtc : PyStr
  nowLocal : PyStr
  today : PyStr
  sessionId : PyStr
  relTo : PyStr → PyStr

/-- The truncation marker appended to over-long commands. -/
def truncMarker : PyStr := "...".data

/-- The log record built by `append_activity` (lines 60-81 of the source). -/
def mkEntry (env : Env) (d : InputData) : Entry :=
  let base : Entry :=
    { timestamp := some env.nowUtc, time_local := some env.nowLocal,
      tool := some (d.tool_name.getD "unknown".data),
      session_id := some env.sessionId }
  match d.tool_input with
  | none => base
  | some ti =>
    let e1 :=
      match ti.file_path with
      | some fp => { base with file := some fp }
      | none =>
        match ti.command with
        | some cmd =>
          let stored := if cmd.length > 100 then cmd.take 100 ++ truncMarker else cmd
          { base with command := some stored }
        | none => base
    if d.tool_name = some "TaskUpdate".data then
      let e2 := { e1 with task_id := ti.taskId, task_status := ti.status }
      if ti.status = some "completed".data then { e2 with task_completed := some true }
      else e2
    else e1

/-- The recursion-guard test of `main` (line 256): the `file_path` value
contains the private state directory segment. -/
def guardHit (fp : PyStr) : Bool :=
  pyIn ".claude/".data fp || pyIn ".claude\\".data fp

/-- Whether `main` skips the event entirely: `tool_input` is a JSON object
whose `file_path` (defaulting to the empty string) trips the guard. -/
def isGuarded (d : InputData) : Bool :=
  match d.tool_input with
  | some ti => guardHit (ti.file_path.getD [])
  | none => false

/-- The `MEANINGFUL_TOOLS` set of the source. -/
def MEANINGFUL_TOOLS : List PyStr :=
  ["Edit".data, "Write".data, "MultiEdit".data, "Bash".data,
   "NotebookEdit".data, "TaskUpdate".data]

/-- `UPDATE_INTERVAL` of the source. -/
def UPDATE_INTERVAL : Int := 5

/-- Membership in the meaningful-tool set. -/
def meaningfulTool (t : PyStr) : Bool := MEANINGFUL_TOOLS.contains t

/-- The shape of the single JSON acknowledgement printed to stdout:
either the empty object or an object with a `systemMessage` key. -/
inductive Ack where
  | empty : Ack
  | sysMsg : Ack
deriving DecidableEq

/-- Injected filesystem failures: `append_activity` raising, and
`save_state` raising. -/
structure Faults where
  appendFails : Bool := false
  saveFails : Bool := false
deriving DecidableEq

/-- What one invocation did: all stdout acknowledgements, the exit status,
and the writes performed (the appended log record, the saved session state,
the written snapshot and the rewritten `CLAUDE.md`). -/
structure Effects where
  output : List Ack
  exitCode : Nat
  logAppend : Option Entry
  savedState : Option SessionState
  snapshotWritten : Option Rendered
  roadmapWritten : Option PyStr
deriving DecidableEq

/-- An invocation that wrote nothing and only printed `out`. -/
def noEffects (out : List Ack) : Effects :=
  { output := out, exitCode := 0, logAppend := none, savedState := none,
    snapshotWritten := none, roadmapWritten := none }

/-- Lines 292-301 of the source: the final `save_state` and the closing
acknowledgement (`save_state` raising is caught at top level). -/
def finishSave (faults : Faults) (entry : Entry) (st : SessionState)
    (completed : Bool) (rw : Option PyStr) : Effects :=
  if faults.saveFails then
    { output := [Ack.sysMsg], exitCode := 0, logAppend := some entry,
      savedState := none, snapshotWritten := none, roadmapWritten := rw }
  else
    { output := [if completed then Ack.sysMsg else Ack.empty], exitCode := 0,
      logAppend := some entry, savedState := some st,
      snapshotWritten := none, roadmapWritten := rw }

/-- Lines 279-301 of the source, applied to the state `st1` left by the
task-completion bookkeeping: the meaningful-action counter, the snapshot
trigger, and the final save. -/
def mainMeaningful (env : Env) (log : List LogLine) (faults : Faults)
    (tool : PyStr) (entry : Entry) (completed : Bool)
    (st1 : SessionState) (rw : Option PyStr) : Effects :=
  if meaningfulTool tool then
    let st2 := { st1 with action_count := st1.action_count + 1 }
    if st2.action_count % UPDATE_INTERVAL = 0 then
      match updateLiveProgress env.relTo env.today (log ++ [LogLine.record entry]) st2 with
      | .error _ =>
        { output := [Ack.sysMsg], exitCode := 0, logAppend := some entry,
          savedState := none, snapshotWritten := none, roadmapWritten := rw }
      | .ok r =>
        if faults.saveFails then
          { output := [Ack.sysMsg], exitCode := 0, logAppend := some entry,
            savedState := none, snapshotWritten := some r, roadmapWritten := rw }
        else
          { output := [Ack.sysMsg], exitCode := 0, logAppend := some entry,
            savedState := some st2, snapshotWritten := some r, roadmapWritten := rw }
    else finishSave faults entry st2 completed rw
  else finishSave faults entry st1 completed rw

/-- Lines 267-301 of the source, after the guard and the log append:
task-completion bookkeeping (lines 267-276), then `mainMeaningful`. -/
def mainTail (env : Env) (roadmap : Option PyStr) (st0 : SessionState)
    (log : List LogLine) (faults : Faults) (tool : PyStr) (entry : Entry)
    (completed : Bool) (tiOpt : Option ToolInput) : Effects :=
  let stepTask : SessionState × Option PyStr :=
    if completed then
      match tiOpt with
      | some ti =>
        let subject := ti.subject.getD ("Task #".data ++ (ti.taskId.getD "None".data))
        ({ st0 with completed_tasks :=
             st0.completed_tasks ++ [{ id := ti.taskId, subject := subject, time := env.nowLocal }] },
         tryUpdateRoadmap roadmap subject)
      | none => (st0, none)
    else (st0, none)
  mainMeaningful env log faults tool entry completed stepTask.1 stepTask.2

/-- `main` (lines 245-307 of the source).  `stdin = none` models standard
input on which `json.load` raises; the loaded session state `st0` and the
current log content `log` stand for what the state file and
`activity.jsonl` hold when the invocation starts. -/
def mainRun (env : Env) (roadmap : Option PyStr) (st0 : SessionState)
    (log : List LogLine) (faults : Faults) (stdin : Option InputData) : Effects :=
  match stdin with
  | none => noEffects [Ack.sysMsg]
  | some d =>
    if isGuarded d then noEffects [Ack.empty]
    else if faults.appendFails then noEffects [Ack.sysMsg]
    else
      let entry := mkEntry env d
      let tool := d.tool_name.getD []
      match d.tool_input with
      | none =>
        if tool = "TaskUpdate".data then
          { output := [Ack.sysMsg], exitCode := 0, logAppend := some entry,
            savedState := none, snapshotWritten := none, roadmapWritten := none }
        else mainTail env roadmap st0 log faults tool entry false none
      | some ti =>
        mainTail env roadmap st0 log faults tool entry
          (tool = "TaskUpdate".data && ti.status = some "completed".data) (some ti)

/-- Several invocations in sequence over one working directory: the saved
state, the appended log line and the rewritten `CLAUDE.md` of each
invocation feed the next (an invocation that saved nothing leaves the
previous file contents in place).  Faults are off.  Returns the `Effects`
of every invocation in order. -/
def runSeq (env : Env) : Option PyStr → SessionState → List LogLine →
    List InputData → List Effects
  | _, _, _, [] => []
  | rm, st, log, d :: ds =>
    let eff := mainRun env rm st log {} (some d)
    let rm' := match eff.roadmapWritten with
      | some c => some c
      | none => rm
    let log' := log ++ (match eff.logAppend with
      | some e => [LogLine.record e]
      | none => [])
    eff :: runSeq env rm' (eff.savedState.getD st) log' ds

/-- Keep predicate for date partitioning: drops exactly the object records
whose `timestamp` does not start with `today` (malformed lines are kept, so
only the excluded records are removed). -/
def keepLine (today : PyStr) : LogLine → Bool
  | .record e => today.isPrefixOf (e.timestamp.getD [])
  | _ => true

/-- A log content containing no line that is valid JSON of a non-object
type (the only line shape on which the scanners raise). -/
def GoodLog (log : List LogLine) : Prop := LogLine.nonDict ∉ log

/-- The input shape on which line 267 of the source raises an uncaught
`AttributeError`: `tool_name` is `TaskUpdate` but `tool_input` is not a
JSON object, so `tool_input.get` does not exist. -/
def tuMalformed (d : InputData) : Bool :=
  decide (d.tool_name.getD [] = "TaskUpdate".data) && d.tool_input.isNone

/-- Whether an invocation on event `d` increments `action_count`: the tool
is in the meaningful set and the event is not short-circuited earlier
(recursion guard, or the `AttributeError` on a malformed `TaskUpdate`). -/
def increments (d : InputData) : Bool :=
  !isGuarded d && !tuMalformed d && meaningfulTool (d.tool_name.getD [])

/-- A per-invocation environment with empty clock strings and identity path
normalisation, used for concrete instances. -/
def envTriv : Env :=
  { nowUtc := [], nowLocal := [], today := [], sessionId := [], relTo := fun s => s }

/-- A concrete meaningful event: an `Edit` of `a.py`. -/
def editEvent : InputData :=
  { tool_name := some "Edit".data, tool_input := some { file_path := some "a.py".data } }

/-- A concrete event whose file path lies inside the private state
directory. -/
def guardedEvent : InputData :=
  { tool_name := some "Edit".data,
    tool_input := some { file_path := some "x/.claude/activity.jsonl".data } }

/-- A 101-character command string. -/
def cmd101 : PyStr := List.replicate 101 'a'

/-- The `tool_input` of a `Bash` event carrying `cmd101`. -/
def tiCmd101 : ToolInput := { command := some cmd101 }

/-- A concrete `Bash` event carrying `cmd101`. -/
def cmdEvent : InputData := { tool_name := some "Bash".data, tool_input := some tiCmd101 }

/-- A session state four meaningful actions into a session. -/
def stFour : SessionState :=
  { action_count := 4, completed_tasks := [], session_start := [], milestones := [] }

/-- The checklist line of the reconciliation scenario. -/
def uncheckedLine : PyStr := "- [ ] Fix login timeout bug".data

/-- The same checklist item written as a numbered list line. -/
def numberedLine : PyStr := "1. [ ] Fix login timeout bug".data

/-- The completed task subject of the reconciliation scenario. -/
def subjResolved : PyStr := "login timeout issue resolved".data

theorem countAux_filter_today (relTo : PyStr → PyStr) (today : PyStr) :
    ∀ (log : List LogLine) (acc : Counts × Finset PyStr),
      countActivityAux relTo today acc (log.filter (keepLine today))
        = countActivityAux relTo today acc log := by
  intro log
  induction log with
  | nil => intro acc; rfl
  | cons l ls ih =>
    intro acc
    cases l with
    | bad =>
      simp only [List.filter_cons, keepLine, if_true, countActivityAux, countStep]
      exact ih acc
    | nonDict =>
      simp only [List.filter_cons, keepLine, if_true, countActivityAux, countStep]
    | record e =>
      by_cases hp : today.isPrefixOf (e.timestamp.getD []) = true
      · simp only [List.filter_cons, keepLine, hp, if_true, countActivityAux, countStep]
        exact ih _
      · simp only [List.filter_cons, keepLine, hp, if_false, countActivityAux, countStep,
          Bool.false_eq_true]
        exact ih acc

theorem extractAux_filter_today (today : PyStr) :
    ∀ (log : List LogLine) (acc : List (Option PyStr × Option PyStr)),
      extractAux today acc (log.filter (keepLine today))
        = extractAux today acc log := by
  intro log
  induction log with
  | nil => intro acc; rfl
  | cons l ls ih =>
    intro acc
    cases l with
    | bad =>
      simp only [List.filter_cons, keepLine, if_true, extractAux]
      exact ih acc
    | nonDict =>
      simp only [List.filter_cons, keepLine, if_true, extractAux]
    | record e =>
      by_cases hp : today.isPrefixOf (e.timestamp.getD []) = true
      · simp only [List.filter_cons, keepLine, hp, if_true, extractAux]
        exact ih _
      · simp only [List.filter_cons, keepLine, hp, if_false, extractAux, Bool.false_eq_true,
          false_and, if_false]
        exact ih acc

/-- C5, the claim as stated: a log record whose timestamp does not start
with today's local date string contributes nothing to the per-category
counts, the files-touched set or today's completed-task list.  Removing all
such records from the log leaves both scans unchanged. -/
theorem c5_date_partitioning (relTo : PyStr → PyStr) (today : PyStr) (log : List LogLine) :
    countActivity relTo today (log.filter (keepLine today)) = countActivity relTo today log
    ∧ extractCompleted today (log.filter (keepLine today)) = extractCompleted today log := by
  exact ⟨countAux_filter_today relTo today log _, extractAux_filter_today today log _⟩

theorem countAux_skip_bad (relTo : PyStr → PyStr) (today : PyStr) :
    ∀ (l1 l2 : List LogLine) (acc : Counts × Finset PyStr),
      countActivityAux relTo today acc (l1 ++ LogLine.bad :: l2)
        = countActivityAux relTo today acc (l1 ++ l2) := by
  intro l1
  induction l1 with
  | nil =>
    intro l2 acc
    simp only [List.nil_append, countActivityAux, countStep]
  | cons l ls ih =>
    intro l2 acc
    cases l with
    | bad => simp only [List.cons_append, countActivityAux, countStep]; exact ih l2 acc
    | nonDict => simp only [List.cons_append, countActivityAux, countStep]
    | record e =>
      simp only [List.cons_append, countActivityAux, countStep]
      by_cases hp : today.isPrefixOf (e.timestamp.getD []) = true
      · rw [if_pos hp]
        exact ih l2 _
      · rw [if_neg hp]
        exact ih l2 acc

theorem extractAux_skip_bad (today : PyStr) :
    ∀ (l1 l2 : List LogLine) (acc : List (Option PyStr × Option PyStr)),
      extractAux today acc (l1 ++ LogLine.bad :: l2)
        = extractAux today acc (l1 ++ l2) := by
  intro l1
  induction l1 with
  | nil => intro l2 acc; simp only [List.nil_append, extractAux]
  | cons l ls ih =>
    intro l2 acc
    cases l with
    | bad => simp only [List.cons_append, extractAux]; exact ih l2 acc
    | nonDict => simp only [List.cons_append, extractAux]
    | record e =>
      simp only [List.cons_append, extractAux]
      exact ih l2 _

theorem countAux_error_of_mem (relTo : PyStr → PyStr) (today : PyStr) :
    ∀ (log : List LogLine) (acc : Counts × Finset PyStr),
      LogLine.nonDict ∈ log → countActivityAux relTo today acc log = .error () := by
  intro log
  induction log with
  | nil => intro acc h; cases h
  | cons l ls ih =>
    intro acc h
    cases l with
    | bad =>
      simp only [countActivityAux, countStep]
      exact ih acc (by simpa using h)
    | nonDict => simp only [countActivityAux, countStep]
    | record e =>
      have hmem : LogLine.nonDict ∈ ls := by simpa using h
      simp only [countActivityAux, countStep]
      by_cases hp : today.isPrefixOf (e.timestamp.getD []) = true
      · rw [if_pos hp]; exact ih _ hmem
      · rw [if_neg hp]; exact ih acc hmem

theorem extractAux_error_of_mem (today : PyStr) :
    ∀ (log : List LogLine) (acc : List (Option PyStr × Option PyStr)),
      LogLine.nonDict ∈ log → extractAux today acc log = .error () := by
  intro log
  induction log with
  | nil => intro acc h; cases h
  | cons l ls ih =>
    intro acc h
    cases l with
    | bad =>
      simp only [extractAux]
      exact ih acc (by simpa using h)
    | nonDict => simp only [extractAux]
    | record e =>
      have hmem : LogLine.nonDict ∈ ls := by simpa using h
      simp only [extractAux]
      exact ih _ hmem

theorem countAux_ok_of_good (relTo : PyStr → PyStr) (today : PyStr) :
    ∀ (log : List LogLine) (acc : Counts × Finset PyStr),
      GoodLog log → ∃ r, countActivityAux relTo today acc log = .ok r := by
  intro log
  induction log with
  | nil => intro acc _; exact ⟨acc, rfl⟩
  | cons l ls ih =>
    intro acc h
    have hls : GoodLog ls := by
      intro hm
      exact h (List.mem_cons_of_mem _ hm)
    cases l with
    | bad =>
      simp only [countActivityAux, countStep]
      exact ih acc hls
    | nonDict => exact absurd (List.mem_cons_self _ _) h
    | record e =>
      simp only [countActivityAux, countStep]
      by_cases hp : today.isPrefixOf (e.timestamp.getD []) = true
      · rw [if_pos hp]; exact ih _ hls
      · rw [if_neg hp]; exact ih acc hls

theorem extractAux_ok_of_good (today : PyStr) :
    ∀ (log : List LogLine) (acc : List (Option PyStr × Option PyStr)),
      GoodLog log → ∃ r, extractAux today acc log = .ok r := by
  intro log
  induction log with
  | nil => intro acc _; exact ⟨acc, rfl⟩
  | cons l ls ih =>
    intro acc h
    have hls : GoodLog ls := by
      intro hm
      exact h (List.mem_cons_of_mem _ hm)
    cases l with
    | bad =>
      simp only [extractAux]
      exact ih acc hls
    | nonDict => exact absurd (List.mem_cons_self _ _) h
    | record e =>
      simp only [extractAux]
      exact ih _ hls

/-- C8 counterexample: a log consisting of one line of valid JSON of a
non-object type (such as the line `42`) makes both scans abort with an
uncaught exception, although the claim says no corrupt or unexpected line
ever aborts the scan. -/
theorem c8_counterexample :
    countActivity (fun s => s) "2025-10-12".data [LogLine.nonDict] = .error ()
    ∧ extractCompleted "2025-10-12".data [LogLine.nonDict] = .error () :=
  ⟨rfl, rfl⟩

/-- C8 as amended: a line on which JSON parsing fails is skipped silently
and every following line is still processed (deleting such a line changes
neither scan), but a line that parses as JSON of a non-object type makes
both scans abort with an error (an `AttributeError` that only the
invocation's top-level handler catches). -/
theorem c8_amended_scan_robustness (relTo : PyStr → PyStr) (today : PyStr)
    (l1 l2 log : List LogLine) (h : LogLine.nonDict ∈ log) :
    countActivity relTo today (l1 ++ LogLine.bad :: l2) = countActivity relTo today (l1 ++ l2)
    ∧ extractCompleted today (l1 ++ LogLine.bad :: l2) = extractCompleted today (l1 ++ l2)
    ∧ countActivity relTo today log = .error ()
    ∧ extractCompleted today log = .error () :=
  ⟨countAux_skip_bad relTo today l1 l2 _, extractAux_skip_bad today l1 l2 _,
   countAux_error_of_mem relTo today log _ h, extractAux_error_of_mem today log _ h⟩

/-- Witness for the amended C8 at a concrete log. -/
theorem c8_amended_scan_robustness_witness :
    LogLine.nonDict ∈ [LogLine.nonDict]
    ∧ (countActivity (fun s => s) "2025-10-12".data ([LogLine.bad] ++ LogLine.bad :: [])
         = countActivity (fun s => s) "2025-10-12".data ([LogLine.bad] ++ [])
       ∧ extractCompleted "2025-10-12".data ([LogLine.bad] ++ LogLine.bad :: [])
         = extractCompleted "2025-10-12".data ([LogLine.bad] ++ [])
       ∧ countActivity (fun s => s) "2025-10-12".data [LogLine.nonDict] = .error ()
       ∧ extractCompleted "2025-10-12".data [LogLine.nonDict] = .error ()) :=
  ⟨List.mem_cons_self _ _,
   c8_amended_scan_robustness (fun s => s) "2025-10-12".data [LogLine.bad] [] [LogLine.nonDict]
     (List.mem_cons_self _ _)⟩

theorem finishSave_shape (faults : Faults) (entry : Entry) (st : SessionState)
    (completed : Bool) (rw : Option PyStr) :
    (finishSave faults entry st completed rw).output.length = 1
    ∧ (finishSave faults entry st completed rw).exitCode = 0 := by
  unfold finishSave
  split_ifs <;> simp

theorem mainTail_shape (env : Env) (rm : Option PyStr) (st0 : SessionState)
    (log : List LogLine) (faults : Faults) (tool : PyStr) (entry : Entry)
    (completed : Bool) (tiOpt : Option ToolInput) :
    (mainTail env rm st0 log faults tool entry completed tiOpt).output.length = 1
    ∧ (mainTail env rm st0 log faults tool entry completed tiOpt).exitCode = 0 := by
  simp only [mainTail, mainMeaningful, finishSave]
  repeat' split
  all_goals simp

/-- C2, the never-fail law: for every standard input (including one on
which JSON parsing fails), every prior file state and every injected
filesystem failure, the invocation prints exactly one acknowledgement
(the `Ack` type: either the empty object or a `systemMessage` object) and
exits with status 0. -/
theorem c2_never_fail (env : Env) (rm : Option PyStr) (st : SessionState)
    (log : List LogLine) (faults : Faults) (stdin : Option InputData) :
    (mainRun env rm st log faults stdin).output.length = 1
    ∧ (mainRun env rm st log faults stdin).exitCode = 0 := by
  cases stdin with
  | none => simp [mainRun, noEffects]
  | some d =>
    simp only [mainRun]
    repeat' split
    all_goals first
      | simp [noEffects]
      | exact mainTail_shape _ _ _ _ _ _ _ _ _

/-- C7, the recursion guard: an event whose `tool_input` is an object whose
`file_path` contains the private state directory segment is acknowledged
with the empty object and performs no write at all: no log append, no state
save, no snapshot, no checklist rewrite. -/
theorem c7_recursion_guard (env : Env) (rm : Option PyStr) (st : SessionState)
    (log : List LogLine) (faults : Faults) (d : InputData) (ti : ToolInput)
    (h1 : d.tool_input = some ti) (h2 : guardHit (ti.file_path.getD []) = true) :
    (mainRun env rm st log faults (some d)).output = [Ack.empty]
    ∧ (mainRun env rm st log faults (some d)).exitCode = 0
    ∧ (mainRun env rm st log faults (some d)).logAppend = none
    ∧ (mainRun env rm st log faults (some d)).savedState = none
    ∧ (mainRun env rm st log faults (some d)).snapshotWritten = none
    ∧ (mainRun env rm st log faults (some d)).roadmapWritten = none := by
  have hg : isGuarded d = true := by
    unfold isGuarded
    rw [h1]
    exact h2
  simp [mainRun, hg, noEffects]

/-- Witness for C7: an `Edit` of `x/.claude/activity.jsonl`. -/
theorem c7_recursion_guard_witness :
    guardHit ((ToolInput.mk (some "x/.claude/activity.jsonl".data) none none none none).file_path.getD []) = true
    ∧ (mainRun envTriv none (freshState []) [] {} (some guardedEvent)).output = [Ack.empty]
    ∧ (mainRun envTriv none (freshState []) [] {} (some guardedEvent)).exitCode = 0
    ∧ (mainRun envTriv none (freshState []) [] {} (some guardedEvent)).logAppend = none
    ∧ (mainRun envTriv none (freshState []) [] {} (some guardedEvent)).savedState = none
    ∧ (mainRun envTriv none (freshState []) [] {} (some guardedEvent)).snapshotWritten = none
    ∧ (mainRun envTriv none (freshState []) [] {} (some guardedEvent)).roadmapWritten = none := by
  refine ⟨by decide, ?_⟩
  have h := c7_recursion_guard envTriv none (freshState []) [] {} guardedEvent
    (ToolInput.mk (some "x/.claude/activity.jsonl".data) none none none none) rfl (by decide)
  exact ⟨h.1, h.2.1, h.2.2.1, h.2.2.2.1, h.2.2.2.2.1, h.2.2.2.2.2⟩

/-- C6, the truncation law: when `tool_input` is an object with no
file-path field and a command string `c`, the stored `command` field is `c`
verbatim if `c` has at most 100 characters, and otherwise the first 100
characters of `c` followed by the marker `...`, for a stored length of
exactly 103. -/
theorem c6_truncation (env : Env) (d : InputData) (ti : ToolInput) (c : PyStr)
    (h1 : d.tool_input = some ti) (h2 : ti.file_path = none) (h3 : ti.command = some c) :
    ∃ stored, (mkEntry env d).command = some stored
      ∧ (c.length ≤ 100 → stored = c)
      ∧ (100 < c.length → stored = c.take 100 ++ truncMarker ∧ stored.length = 100 + truncMarker.length) := by
  refine ⟨if c.length > 100 then c.take 100 ++ truncMarker else c, ?_, ?_, ?_⟩
  · unfold mkEntry
    rw [h1]
    simp only [h2, h3]
    split_ifs <;> rfl
  · intro h
    rw [if_neg (by omega)]
  · intro h
    rw [if_pos (by omega)]
    refine ⟨rfl, ?_⟩
    simp only [List.length_append, List.length_take]
    omega

/-- Witness for C6: a `Bash` event with a 101-character command. -/
theorem c6_truncation_witness :
    cmdEvent.tool_input = some tiCmd101 ∧ tiCmd101.file_path = none ∧ tiCmd101.command = some cmd101
    ∧ ∃ stored, (mkEntry envTriv cmdEvent).command = some stored
        ∧ (cmd101.length ≤ 100 → stored = cmd101)
        ∧ (100 < cmd101.length →
            stored = cmd101.take 100 ++ truncMarker ∧ stored.length = 100 + truncMarker.length) :=
  ⟨rfl, rfl, rfl, c6_truncation envTriv cmdEvent tiCmd101 cmd101 rfl rfl rfl⟩

theorem parseUnchecked_shape (line g1 g2 : PyStr)
    (hp : parseUnchecked line = some (g1, g2)) :
    ∃ ws3 : PyStr, (∀ c ∈ ws3, isPySpace c = true)
      ∧ line = g1 ++ '[' :: (ws3 ++ ']' :: g2) := by
  unfold parseUnchecked at hp
  split at hp
  case h_2 => exact absurd hp (by simp)
  case h_1 m r2 hdw =>
    rw [if_pos] at hp
    case hc =>
      by_contra hm
      rw [if_neg hm] at hp
      exact absurd hp (by simp)
    case _ =>
      split at hp
      case h_2 => exact absurd hp (by simp)
      case h_1 r4 hdw2 =>
        split at hp
        case h_2 => exact absurd hp (by simp)
        case h_1 rest hdw3 =>
          split at hp
          case isTrue => exact absurd hp (by simp)
          case isFalse hrest =>
            refine ⟨r4.takeWhile isPySpace, fun c hc => List.mem_takeWhile_imp hc, ?_⟩
            have e1 : line = line.takeWhile isPySpace ++ (m :: r2) := by
              rw [← hdw, List.takeWhile_append_dropWhile]
            have e2 : r2 = r2.takeWhile isPySpace ++ ('[' :: r4) := by
              rw [← hdw2, List.takeWhile_append_dropWhile]
            have e3 : r4 = r4.takeWhile isPySpace ++ (']' :: rest) := by
              rw [← hdw3, List.takeWhile_append_dropWhile]
            have hg : g1 = line.takeWhile isPySpace ++ m :: r2.takeWhile isPySpace
                ∧ g2 = rest := by
              have := hp
              simp only [Option.some.injEq, Prod.mk.injEq] at this
              exact ⟨this.1.symm, this.2.symm⟩
            rw [hg.1, hg.2]
            conv_lhs => rw [e1, e2, e3]
            simp [List.append_assoc]

theorem checked_ne_line (line g1 g2 : PyStr)
    (hp : parseUnchecked line = some (g1, g2)) :
    g1 ++ checkedBox ++ g2 ≠ line := by
  obtain ⟨ws3, hws, hline⟩ := parseUnchecked_shape line g1 g2 hp
  rw [hline]
  intro h
  have h2 : checkedBox ++ g2 = '[' :: (ws3 ++ ']' :: g2) := by
    have h' : g1 ++ (checkedBox ++ g2) = g1 ++ ('[' :: (ws3 ++ ']' :: g2)) := by
      simpa [List.append_assoc] using h
    exact List.append_cancel_left h' 
  have h3 : ('x' : Char) :: ']' :: g2 = ws3 ++ ']' :: g2 := by
    have := h2
    simp only [checkedBox] at this
    exact (List.cons.injEq _ _ _ _).mp this |>.2
  cases ws3 with
  | nil =>
    have := congrArg List.length h3
    simp at this
  | cons c ws3' =>
    have hc : ('x' : Char) = c := ((List.cons.injEq _ _ _ _).mp h3).1
    have := hws c (List.mem_cons_self _ _)
    rw [← hc] at this
    simp [isPySpace] at this

/-- C4, checklist reconciliation: for a line the reconciler recognises as
an unchecked `-`/`*` item (capture groups `g1`, `g2`), the line is rewritten
to its checked form (the bracket replaced by `[x]`) precisely when some word
of the item text longer than 3 characters occurs, case-insensitively, as a
substring of the completed task's subject. -/
theorem c4_checklist_marking (subject line g1 g2 : PyStr)
    (hp : parseUnchecked line = some (g1, g2)) :
    (roadmapLine (pyLower subject) line = g1 ++ checkedBox ++ g2
       ∧ roadmapLine (pyLower subject) line ≠ line)
    ↔ ∃ w ∈ (pySplitWs (pyLower (pyStrip g2))).filter (fun w => w.length > 3),
        pyIn w (pyLower subject) = true := by
  unfold roadmapLine
  rw [hp]
  dsimp only
  by_cases hc : (pySplitWs (pyLower (pyStrip g2))).filter (fun w => w.length > 3) ≠ []
    ∧ ((pySplitWs (pyLower (pyStrip g2))).filter (fun w => w.length > 3)).any
        (fun w => pyIn w (pyLower subject)) = true
  · rw [if_pos hc]
    constructor
    · intro _
      exact List.any_eq_true.mp hc.2
    · intro _
      exact ⟨rfl, checked_ne_line line g1 g2 hp⟩
  · rw [if_neg hc]
    constructor
    · intro h
      exact absurd rfl h.2
    · intro hex
      obtain ⟨w, hmem, hpw⟩ := hex
      exact absurd ⟨List.ne_nil_of_mem hmem, List.any_eq_true.mpr ⟨w, hmem, hpw⟩⟩ hc

/-- Witness for C4: the scenario line `- [ ] Fix login timeout bug` with
completed subject `login timeout issue resolved`. -/
theorem c4_checklist_marking_witness :
    parseUnchecked uncheckedLine = some ("- ".data, " Fix login timeout bug".data)
    ∧ ((roadmapLine (pyLower subjResolved) uncheckedLine
          = "- ".data ++ checkedBox ++ " Fix login timeout bug".data
        ∧ roadmapLine (pyLower subjResolved) uncheckedLine ≠ uncheckedLine)
      ↔ ∃ w ∈ (pySplitWs (pyLower (pyStrip " Fix login timeout bug".data))).filter
            (fun w => w.length > 3),
          pyIn w (pyLower subjResolved) = true) :=
  ⟨by decide,
   c4_checklist_marking subjResolved uncheckedLine "- ".data " Fix login timeout bug".data
     (by decide)⟩

/-- C9: the reconciler does not recognise numbered checklist lines.  The
line `1. [ ] Fix login timeout bug` fails the inline pattern, is left
unchanged by the per-line rewrite even for the matching subject
`login timeout issue resolved`, and a `CLAUDE.md` consisting of that line
is not rewritten at all — although `ROADMAP_PATTERNS` in the source
declares a pattern for exactly this numbered shape. -/
theorem c9_numbered_line_ignored :
    parseUnchecked numberedLine = none
    ∧ roadmapLine (pyLower subjResolved) numberedLine = numberedLine
    ∧ tryUpdateRoadmap (some numberedLine) subjResolved = none := by
  refine ⟨by decide, by decide, ?_⟩
  decide

theorem updateLiveProgress_error_of_mem (relTo : PyStr → PyStr) (today : PyStr)
    (log : List LogLine) (st : SessionState) (h : LogLine.nonDict ∈ log) :
    updateLiveProgress relTo today log st = .error () := by
  unfold updateLiveProgress countActivity
  rw [countAux_error_of_mem relTo today log _ h]

theorem updateLiveProgress_ok_of_good (relTo : PyStr → PyStr) (today : PyStr)
    (log : List LogLine) (st : SessionState) (h : GoodLog log) :
    ∃ r, updateLiveProgress relTo today log st = .ok r := by
  obtain ⟨⟨c0, f0⟩, hc⟩ := countAux_ok_of_good relTo today log ({}, ∅) h
  obtain ⟨re, he⟩ := extractAux_ok_of_good today log [] h
  unfold updateLiveProgress countActivity extractCompleted
  rw [hc, he]
  exact ⟨_, rfl⟩

theorem updateLiveProgress_ok_milestones (relTo : PyStr → PyStr) (today : PyStr)
    (log : List LogLine) (st : SessionState) (r : Rendered)
    (h : updateLiveProgress relTo today log st = .ok r) :
    r.milestonesList = milestonesSection st.milestones := by
  unfold updateLiveProgress at h
  split at h
  · cases h
  · split at h
    · cases h
    · cases h
      rfl

theorem GoodLog_append_record (log : List LogLine) (e : Entry) (h : GoodLog log) :
    GoodLog (log ++ [LogLine.record e]) := by
  intro hm
  rcases List.mem_append.mp hm with h1 | h1
  · exact h h1
  · simp at h1

theorem finishSave_noFault (entry : Entry) (st : SessionState)
    (completed : Bool) (rw : Option PyStr) :
    finishSave {} entry st completed rw =
      { output := [if completed then Ack.sysMsg else Ack.empty], exitCode := 0,
        logAppend := some entry, savedState := some st,
        snapshotWritten := none, roadmapWritten := rw } := by
  simp [finishSave]

theorem mainMeaningful_step (env : Env) (log : List LogLine) (tool : PyStr)
    (entry : Entry) (completed : Bool) (st1 : SessionState) (rw : Option PyStr)
    (h : GoodLog log) :
    (mainMeaningful env log {} tool entry completed st1 rw).snapshotWritten.isSome
      = (meaningfulTool tool && decide ((st1.action_count + 1) % UPDATE_INTERVAL = 0))
    ∧ ∃ st', (mainMeaningful env log {} tool entry completed st1 rw).savedState = some st'
        ∧ st'.action_count = st1.action_count + (if meaningfulTool tool then 1 else 0) := by
  unfold mainMeaningful
  by_cases hm : meaningfulTool tool = true
  · rw [if_pos hm]
    by_cases htr : ({ st1 with action_count := st1.action_count + 1 } : SessionState).action_count % UPDATE_INTERVAL = 0
    · rw [if_pos htr]
      obtain ⟨r, hr⟩ := updateLiveProgress_ok_of_good env.relTo env.today
        (log ++ [LogLine.record entry]) { st1 with action_count := st1.action_count + 1 }
        (GoodLog_append_record log entry h)
      rw [hr]
      simp only [show ({ appendFails := false, saveFails := false } : Faults).saveFails = false from rfl,
        Bool.false_eq_true, if_false]
      constructor
      · simp [hm, htr]
      · exact ⟨_, rfl, by simp [hm]⟩
    · rw [if_neg htr, finishSave_noFault]
      constructor
      · simp [hm, htr]
      · exact ⟨_, rfl, by simp [hm]⟩
  · rw [if_neg hm, finishSave_noFault]
    constructor
    · simp [hm]
    · exact ⟨_, rfl, by simp [hm]⟩

theorem mainTail_step (env : Env) (rm : Option PyStr) (st0 : SessionState)
    (log : List LogLine) (tool : PyStr) (entry : Entry)
    (completed : Bool) (tiOpt : Option ToolInput) (h : GoodLog log) :
    (mainTail env rm st0 log {} tool entry completed tiOpt).snapshotWritten.isSome
      = (meaningfulTool tool && decide ((st0.action_count + 1) % UPDATE_INTERVAL = 0))
    ∧ ∃ st', (mainTail env rm st0 log {} tool entry completed tiOpt).savedState = some st'
        ∧ st'.action_count = st0.action_count + (if meaningfulTool tool then 1 else 0) := by
  unfold mainTail
  cases completed with
  | false => exact mainMeaningful_step env log tool entry false st0 none h
  | true =>
    cases tiOpt with
    | none => exact mainMeaningful_step env log tool entry true st0 none h
    | some ti =>
      exact mainMeaningful_step env log tool entry true
        { st0 with completed_tasks := st0.completed_tasks
            ++ [CompletedTask.mk ti.taskId
                 (ti.subject.getD ("Task #".data ++ (ti.taskId.getD "None".data))) env.nowLocal] }
        (tryUpdateRoadmap rm (ti.subject.getD ("Task #".data ++ (ti.taskId.getD "None".data)))) h

theorem mainRun_step (env : Env) (rm : Option PyStr) (st : SessionState)
    (log : List LogLine) (d : InputData) (h : GoodLog log) :
    (mainRun env rm st log {} (some d)).snapshotWritten.isSome
      = (increments d && decide ((st.action_count + 1) % UPDATE_INTERVAL = 0))
    ∧ ((mainRun env rm st log {} (some d)).savedState.getD st).action_count
      = st.action_count + (if increments d then 1 else 0) := by
  by_cases hg : isGuarded d = true
  · have hinc : increments d = false := by simp [increments, hg]
    simp [mainRun, hg, noEffects, hinc]
  · have hg' : isGuarded d = false := by simpa using hg
    cases hti : d.tool_input with
    | none =>
      by_cases htu : d.tool_name.getD [] = "TaskUpdate".data
      · have hinc : increments d = false := by
          simp [increments, tuMalformed, htu, hti]
        simp only [mainRun, hg', Bool.false_eq_true, if_false,
          show ({} : Faults).appendFails = false from rfl, hti, if_pos htu, hinc]
        simp
      · have hinc : increments d = meaningfulTool (d.tool_name.getD []) := by
          simp [increments, tuMalformed, htu, hg']
        obtain ⟨h1, st', h2, h3⟩ := mainTail_step env rm st log (d.tool_name.getD [])
          (mkEntry env d) false none h
        simp only [mainRun, hg', Bool.false_eq_true, if_false,
          show ({} : Faults).appendFails = false from rfl, hti, if_neg htu]
        rw [hinc]
        refine ⟨h1, ?_⟩
        rw [h2]
        simpa using h3
    | some ti =>
      have hinc : increments d = meaningfulTool (d.tool_name.getD []) := by
        simp [increments, tuMalformed, hg', hti]
      obtain ⟨h1, st', h2, h3⟩ := mainTail_step env rm st log (d.tool_name.getD [])
        (mkEntry env d)
        (decide (d.tool_name.getD [] = "TaskUpdate".data) && decide (ti.status = some "completed".data))
        (some ti) h
      simp only [mainRun, hg', Bool.false_eq_true, if_false,
        show ({} : Faults).appendFails = false from rfl, hti]
      rw [hinc]
      refine ⟨h1, ?_⟩
      rw [h2]
      simpa using h3

theorem GoodLog_append_opt (log : List LogLine) (x : Option Entry) (h : GoodLog log) :
    GoodLog (log ++ (match x with | some e => [LogLine.record e] | none => [])) := by
  cases x with
  | none => simpa using h
  | some e => exact GoodLog_append_record log e h

theorem runSeq_flags (env : Env) (events : List InputData) :
    ∀ (rm : Option PyStr) (st : SessionState) (log : List LogLine), GoodLog log →
      ∀ i, i < events.length →
        ((runSeq env rm st log events).map (fun e => e.snapshotWritten.isSome)).getD i false
          = (increments (events.getD i default)
             && decide ((st.action_count + (((events.take (i+1)).countP increments : Nat) : Int))
                 % UPDATE_INTERVAL = 0)) := by
  induction events with
  | nil =>
    intro rm st log _ i hi
    cases hi
  | cons d ds ih =>
    intro rm st log hlog i hi
    cases i with
    | zero =>
      obtain ⟨h1, _⟩ := mainRun_step env rm st log d hlog
      simp only [runSeq, List.map_cons, List.getD_cons_zero, List.take_succ_cons,
        List.take_zero, List.countP_cons, List.countP_nil]
      rw [h1]
      cases hinc : increments d
      · simp [hinc]
      · simp [hinc]
    | succ n =>
      obtain ⟨_, h2⟩ := mainRun_step env rm st log d hlog
      have hn : n < ds.length := Nat.lt_of_succ_lt_succ hi
      have key : ∀ (a : Int) (k : Nat) (b : Bool),
          a + (if b then (1 : Int) else 0) + (k : Int)
            = a + (((k + if b then 1 else 0 : Nat) : Int)) := by
        intro a k b
        cases b <;> push_cast <;> ring
      simp only [runSeq, List.map_cons, List.getD_cons_succ, List.take_succ_cons,
        List.countP_cons]
      rw [ih _ _ _ (GoodLog_append_opt log _ hlog) n hn, h2,
        key st.action_count ((ds.take (n+1)).countP increments) (increments d)]

theorem countP_eq_of_forall {α : Type} {p q : α → Bool} :
    ∀ (l : List α), (∀ a ∈ l, p a = q a) → l.countP p = l.countP q := by
  intro l
  induction l with
  | nil => intro _; rfl
  | cons a l ih =>
    intro h
    rw [List.countP_cons, List.countP_cons, h a (List.mem_cons_self _ _),
      ih (fun b hb => h b (List.mem_cons_of_mem _ hb))]

/-- C1, trigger determinism: over any sequence of events, none of which is
short-circuited before the counter (by the recursion guard, claim C7, or by
the malformed-`TaskUpdate` input error, claim C2), starting from the fresh
default state, the snapshot is written exactly on the events whose tool is
in the meaningful set and for which `action_count`, after being incremented
for that event, is a multiple of `UPDATE_INTERVAL` — that is, exactly on
the 5th, 10th, 15th, ... meaningful event, regardless of interleaved
non-meaningful events. -/
theorem c1_trigger_determinism (env : Env) (rm : Option PyStr) (now : PyStr)
    (log : List LogLine) (events : List InputData)
    (hlog : GoodLog log)
    (hev : ∀ d ∈ events, isGuarded d = false ∧ tuMalformed d = false)
    (i : Nat) (hi : i < events.length) :
    ((runSeq env rm (freshState now) log events).map (fun e => e.snapshotWritten.isSome)).getD i false
      = (meaningfulTool ((events.getD i default).tool_name.getD [])
         && decide (((((events.take (i+1)).countP
              (fun d => meaningfulTool (d.tool_name.getD []))) : Nat) : Int)
             % UPDATE_INTERVAL = 0)) := by
  have hinc : ∀ d ∈ events, increments d = meaningfulTool (d.tool_name.getD []) := by
    intro d hd
    obtain ⟨hg, ht⟩ := hev d hd
    simp [increments, hg, ht]
  rw [runSeq_flags env events rm (freshState now) log hlog i hi]
  have hmem : events.getD i default ∈ events := by
    rw [List.getD_eq_getElem _ _ hi]
    exact List.getElem_mem _
  rw [hinc _ hmem]
  have hcnt : (events.take (i+1)).countP increments
      = (events.take (i+1)).countP (fun d => meaningfulTool (d.tool_name.getD [])) := by
    apply countP_eq_of_forall
    intro a ha
    exact hinc a (List.take_subset _ _ ha)
  rw [hcnt]
  simp [freshState]

/-- Witness for C1: five plain `Edit` events from a fresh session; the
snapshot fires on the fifth. -/
theorem c1_trigger_determinism_witness :
    GoodLog ([] : List LogLine)
    ∧ (∀ d ∈ List.replicate 5 editEvent, isGuarded d = false ∧ tuMalformed d = false)
    ∧ ((runSeq envTriv none (freshState []) [] (List.replicate 5 editEvent)).map
         (fun e => e.snapshotWritten.isSome)).getD 4 false
      = (meaningfulTool (((List.replicate 5 editEvent).getD 4 default).tool_name.getD [])
         && decide ((((((List.replicate 5 editEvent).take 5).countP
              (fun d => meaningfulTool (d.tool_name.getD []))) : Nat) : Int)
             % UPDATE_INTERVAL = 0)) :=
  ⟨(by intro h; cases h), (by decide),
   c1_trigger_determinism envTriv none [] [] (List.replicate 5 editEvent)
     (by intro h; cases h) (by decide) 4 (by decide)⟩

theorem mainMeaningful_error (env : Env) (log : List LogLine) (faults : Faults)
    (tool : PyStr) (entry : Entry) (completed : Bool)
    (st1 : SessionState) (rw : Option PyStr)
    (hm : meaningfulTool tool = true)
    (htr : (st1.action_count + 1) % UPDATE_INTERVAL = 0)
    (hbad : LogLine.nonDict ∈ log) :
    mainMeaningful env log faults tool entry completed st1 rw =
      { output := [Ack.sysMsg], exitCode := 0, logAppend := some entry,
        savedState := none, snapshotWritten := none, roadmapWritten := rw } := by
  unfold mainMeaningful
  rw [if_pos hm,
    if_pos (show ({ st1 with action_count := st1.action_count + 1 } : SessionState).action_count
      % UPDATE_INTERVAL = 0 from htr),
    updateLiveProgress_error_of_mem _ _ _ _ (List.mem_append_left _ hbad)]

theorem mainTail_error (env : Env) (rm : Option PyStr) (st0 : SessionState)
    (log : List LogLine) (faults : Faults) (tool : PyStr) (entry : Entry)
    (completed : Bool) (tiOpt : Option ToolInput)
    (hm : meaningfulTool tool = true)
    (htr : (st0.action_count + 1) % UPDATE_INTERVAL = 0)
    (hbad : LogLine.nonDict ∈ log) :
    (mainTail env rm st0 log faults tool entry completed tiOpt).savedState = none
    ∧ (mainTail env rm st0 log faults tool entry completed tiOpt).output = [Ack.sysMsg]
    ∧ (mainTail env rm st0 log faults tool entry completed tiOpt).exitCode = 0 := by
  cases completed with
  | false =>
    have hb : mainTail env rm st0 log faults tool entry false tiOpt
        = mainMeaningful env log faults tool entry false st0 none := rfl
    rw [hb, mainMeaningful_error env log faults tool entry false st0 none hm htr hbad]
    exact ⟨rfl, rfl, rfl⟩
  | true =>
    cases tiOpt with
    | none =>
      have hb : mainTail env rm st0 log faults tool entry true none
          = mainMeaningful env log faults tool entry true st0 none := rfl
      rw [hb, mainMeaningful_error env log faults tool entry true st0 none hm htr hbad]
      exact ⟨rfl, rfl, rfl⟩
    | some ti =>
      have hb : mainTail env rm st0 log faults tool entry true (some ti)
          = mainMeaningful env log faults tool entry true
              { st0 with completed_tasks := st0.completed_tasks
                  ++ [CompletedTask.mk ti.taskId
                       (ti.subject.getD ("Task #".data ++ (ti.taskId.getD "None".data))) env.nowLocal] }
              (tryUpdateRoadmap rm (ti.subject.getD ("Task #".data ++ (ti.taskId.getD "None".data)))) := rfl
      rw [hb, mainMeaningful_error env log faults tool entry true
        { st0 with completed_tasks := st0.completed_tasks
            ++ [CompletedTask.mk ti.taskId
                 (ti.subject.getD ("Task #".data ++ (ti.taskId.getD "None".data))) env.nowLocal] }
        (tryUpdateRoadmap rm (ti.subject.getD ("Task #".data ++ (ti.taskId.getD "None".data))))
        hm htr hbad]
      exact ⟨rfl, rfl, rfl⟩

/-- C3 counterexample: with the log holding one non-object JSON line, a
fifth meaningful action makes `update_live_progress` raise; the exception
escapes to the top-level handler and `save_state` is never reached, so the
claim that the state is nonetheless saved is false. -/
theorem c3_counterexample :
    updateLiveProgress envTriv.relTo envTriv.today
        ([LogLine.nonDict] ++ [LogLine.record (mkEntry envTriv editEvent)])
        (SessionState.mk 5 [] [] []) = .error ()
    ∧ (mainRun envTriv none stFour [LogLine.nonDict] {} (some editEvent)).savedState = none :=
  ⟨rfl, rfl⟩

/-- C3 as amended: when an error is raised inside `update_live_progress`
(here: the scan hitting a non-object JSON log line) on an invocation that
reaches the snapshot trigger, the invocation still emits exactly one
diagnostic acknowledgement and exits 0, but `save_state` is NOT invoked:
the updated session state is not persisted for that invocation. -/
theorem c3_amended_save_skipped (env : Env) (rm : Option PyStr) (st : SessionState)
    (log : List LogLine) (d : InputData)
    (h1 : LogLine.nonDict ∈ log) (h2 : increments d = true)
    (h3 : (st.action_count + 1) % UPDATE_INTERVAL = 0) :
    (mainRun env rm st log {} (some d)).savedState = none
    ∧ (mainRun env rm st log {} (some d)).output = [Ack.sysMsg]
    ∧ (mainRun env rm st log {} (some d)).exitCode = 0 := by
  have hg : isGuarded d = false := by
    by_contra hc
    have hgt : isGuarded d = true := by simpa using hc
    simp [increments, hgt] at h2
  have htm : tuMalformed d = false := by
    by_contra hc
    have hmt : tuMalformed d = true := by simpa using hc
    simp [increments, hmt] at h2
  have hm : meaningfulTool (d.tool_name.getD []) = true := by
    simpa [increments, hg, htm] using h2
  cases hti : d.tool_input with
  | none =>
    have htu : ¬(d.tool_name.getD [] = "TaskUpdate".data) := by
      intro hc
      simp [tuMalformed, hc, hti] at htm
    simp only [mainRun, hg, Bool.false_eq_true, if_false,
      show ({} : Faults).appendFails = false from rfl, hti, if_neg htu]
    exact mainTail_error env rm st log {} _ _ false none hm h3 h1
  | some ti =>
    simp only [mainRun, hg, Bool.false_eq_true, if_false,
      show ({} : Faults).appendFails = false from rfl, hti]
    exact mainTail_error env rm st log {} _ _ _ (some ti) hm h3 h1

/-- Witness for the amended C3: `Edit` as the fifth meaningful action with
a corrupt log line present. -/
theorem c3_amended_save_skipped_witness :
    LogLine.nonDict ∈ [LogLine.nonDict]
    ∧ increments editEvent = true
    ∧ (stFour.action_count + 1) % UPDATE_INTERVAL = 0
    ∧ (mainRun envTriv none stFour [LogLine.nonDict] {} (some editEvent)).savedState = none
    ∧ (mainRun envTriv none stFour [LogLine.nonDict] {} (some editEvent)).output = [Ack.sysMsg]
    ∧ (mainRun envTriv none stFour [LogLine.nonDict] {} (some editEvent)).exitCode = 0 := by
  refine ⟨List.mem_cons_self _ _, by decide, by decide, ?_⟩
  exact c3_amended_save_skipped envTriv none stFour [LogLine.nonDict] editEvent
    (List.mem_cons_self _ _) (by decide) (by decide)

theorem mainMeaningful_milestones (env : Env) (log : List LogLine) (faults : Faults)
    (tool : PyStr) (entry : Entry) (completed : Bool)
    (st1 : SessionState) (rw : Option PyStr) :
    (∀ st', (mainMeaningful env log faults tool entry completed st1 rw).savedState = some st'
        → st'.milestones = st1.milestones)
    ∧ (∀ r, (mainMeaningful env log faults tool entry completed st1 rw).snapshotWritten = some r
        → r.milestonesList = milestonesSection st1.milestones) := by
  constructor
  · intro st' hs
    unfold mainMeaningful finishSave at hs
    dsimp only at hs
    repeat' split at hs
    all_goals cases hs
    all_goals rfl
  · intro r hr
    unfold mainMeaningful finishSave at hr
    dsimp only at hr
    repeat' split at hr
    all_goals cases hr
    all_goals
      exact updateLiveProgress_ok_milestones _ _ _
        { action_count := st1.action_count + 1, completed_tasks := st1.completed_tasks,
          session_start := st1.session_start, milestones := st1.milestones } r (by assumption)

theorem mainTail_milestones (env : Env) (rm : Option PyStr) (st0 : SessionState)
    (log : List LogLine) (faults : Faults) (tool : PyStr) (entry : Entry)
    (completed : Bool) (tiOpt : Option ToolInput) :
    (∀ st', (mainTail env rm st0 log faults tool entry completed tiOpt).savedState = some st'
        → st'.milestones = st0.milestones)
    ∧ (∀ r, (mainTail env rm st0 log faults tool entry completed tiOpt).snapshotWritten = some r
        → r.milestonesList = milestonesSection st0.milestones) := by
  cases completed with
  | false =>
    have hb : mainTail env rm st0 log faults tool entry false tiOpt
        = mainMeaningful env log faults tool entry false st0 none := rfl
    rw [hb]
    exact mainMeaningful_milestones env log faults tool entry false st0 none
  | true =>
    cases tiOpt with
    | none =>
      have hb : mainTail env rm st0 log faults tool entry true none
          = mainMeaningful env log faults tool entry true st0 none := rfl
      rw [hb]
      exact mainMeaningful_milestones env log faults tool entry true st0 none
    | some ti =>
      have hb : mainTail env rm st0 log faults tool entry true (some ti)
          = mainMeaningful env log faults tool entry true
              { st0 with completed_tasks := st0.completed_tasks
                  ++ [CompletedTask.mk ti.taskId
                       (ti.subject.getD ("Task #".data ++ (ti.taskId.getD "None".data))) env.nowLocal] }
              (tryUpdateRoadmap rm (ti.subject.getD ("Task #".data ++ (ti.taskId.getD "None".data)))) := rfl
      rw [hb]
      exact mainMeaningful_milestones env log faults tool entry true
        { st0 with completed_tasks := st0.completed_tasks
            ++ [CompletedTask.mk ti.taskId
                 (ti.subject.getD ("Task #".data ++ (ti.taskId.getD "None".data))) env.nowLocal] }
        (tryUpdateRoadmap rm (ti.subject.getD ("Task #".data ++ (ti.taskId.getD "None".data))))

theorem mainRun_milestones_frame (env : Env) (rm : Option PyStr) (st : SessionState)
    (log : List LogLine) (faults : Faults) (stdin : Option InputData) :
    (∀ st', (mainRun env rm st log faults stdin).savedState = some st'
        → st'.milestones = st.milestones)
    ∧ (∀ r, (mainRun env rm st log faults stdin).snapshotWritten = some r
        → r.milestonesList = milestonesSection st.milestones) := by
  cases stdin with
  | none => simp [mainRun, noEffects]
  | some d =>
    by_cases hg : isGuarded d = true
    · have hb : mainRun env rm st log faults (some d) = noEffects [Ack.empty] := by
        simp [mainRun, hg]
      rw [hb]
      simp [noEffects]
    · have hg' : isGuarded d = false := by simpa using hg
      by_cases ha : faults.appendFails = true
      · have hb : mainRun env rm st log faults (some d) = noEffects [Ack.sysMsg] := by
          simp [mainRun, hg', ha]
        rw [hb]
        simp [noEffects]
      · have ha' : faults.appendFails = false := by simpa using ha
        cases hti : d.tool_input with
        | none =>
          by_cases htu : d.tool_name.getD [] = "TaskUpdate".data
          · have hb : mainRun env rm st log faults (some d)
                = { output := [Ack.sysMsg], exitCode := 0, logAppend := some (mkEntry env d),
                    savedState := none, snapshotWritten := none, roadmapWritten := none } := by
              simp only [mainRun, hg', Bool.false_eq_true, if_false, ha', hti, if_pos htu]
            rw [hb]
            simp
          · have hb : mainRun env rm st log faults (some d)
                = mainTail env rm st log faults (d.tool_name.getD []) (mkEntry env d) false none := by
              simp only [mainRun, hg', Bool.false_eq_true, if_false, ha', hti, if_neg htu]
            rw [hb]
            exact mainTail_milestones env rm st log faults _ _ false none
        | some ti =>
          have hb : mainRun env rm st log faults (some d)
              = mainTail env rm st log faults (d.tool_name.getD []) (mkEntry env d)
                  (decide (d.tool_name.getD [] = "TaskUpdate".data)
                    && decide (ti.status = some "completed".data)) (some ti) := by
            simp only [mainRun, hg', Bool.false_eq_true, if_false, ha', hti]
          rw [hb]
          exact mainTail_milestones env rm st log faults _ _ _ (some ti)

theorem runSeq_milestones_empty (env : Env) :
    ∀ (events : List InputData) (st : SessionState) (rm : Option PyStr) (log : List LogLine),
      st.milestones = [] →
      ∀ eff ∈ runSeq env rm st log events, ∀ r, eff.snapshotWritten = some r →
        r.milestonesList = [] := by
  intro events
  induction events with
  | nil =>
    intro st rm log hst eff hm
    cases hm
  | cons d ds ih =>
    intro st rm log hst eff hm r hr
    simp only [runSeq, List.mem_cons] at hm
    rcases hm with hm | hm
    · subst hm
      have hms := (mainRun_milestones_frame env rm st log {} (some d)).2 r hr
      rw [hms, hst]
      simp [milestonesSection]
    · have hnext : ((mainRun env rm st log {} (some d)).savedState.getD st).milestones = [] := by
        cases hsv : (mainRun env rm st log {} (some d)).savedState with
        | none => simpa [hsv] using hst
        | some s2 =>
          have hfr := (mainRun_milestones_frame env rm st log {} (some d)).1 s2 hsv
          simpa [hsv, hfr] using hst
      exact ih _ _ _ hnext eff hm r hr

/-- C10: no operation of the program ever appends to or modifies the
milestones list — every saved state carries exactly the milestones of the
loaded state — and consequently, over any run that starts from the fresh
default state, milestones stays empty forever and the snapshot's
Milestones section is never rendered (the rendered section string stays
empty). -/
theorem c10_milestones_never_written :
    (∀ (env : Env) (rm : Option PyStr) (st : SessionState) (log : List LogLine)
        (faults : Faults) (stdin : Option InputData) (st' : SessionState),
        (mainRun env rm st log faults stdin).savedState = some st'
          → st'.milestones = st.milestones)
    ∧ (∀ (env : Env) (rm : Option PyStr) (now : PyStr) (log : List LogLine)
        (events : List InputData) (eff : Effects),
        eff ∈ runSeq env rm (freshState now) log events →
        ∀ r, eff.snapshotWritten = some r → r.milestonesList = []) := by
  constructor
  · intro env rm st log faults stdin st' h
    exact (mainRun_milestones_frame env rm st log faults stdin).1 st' h
  · intro env rm now log events eff hm r hr
    exact runSeq_milestones_empty env events (freshState now) rm log rfl eff hm r hr

/-- Witness for C10: the single `Edit` event saves a state whose milestones
equal those of the fresh state (both empty). -/
theorem c10_milestones_never_written_witness :
    (mainRun envTriv none (freshState []) [] {} (some editEvent)).savedState
      = some (SessionState.mk 1 [] [] [])
    ∧ (SessionState.mk 1 [] [] []).milestones = (freshState []).milestones :=
  ⟨by decide,
   c10_milestones_never_written.1 envTriv none (freshState []) [] {} (some editEvent)
     (SessionState.mk 1 [] [] []) (by decide)⟩
